import Mathlib

/-!
Verification of the `mongodb-aggregate-paginator` library.

Shallow embedding of `src/Paginator.ts` (class `Paginator`) and
`src/Pagination.ts` (interfaces `Pagination`, `PaginationOptions`).

Modelling conventions:
* JavaScript numbers used as page/limit/counts are modelled as `Int`
  (the library only ever does integer arithmetic on them, plus one
  `Math.ceil` of a quotient, modelled by `ceilDiv`).
* The caller-supplied aggregation pipeline is a list of opaque stage
  descriptors of type `sigma`; the stages that the paginator itself appends
  (`$skip`, `$limit`, `$project`, `$count`) are distinguished constructors of
  `Stage`, so that the exact shape of the executed pipelines can be stated.
* Optional option fields are `Option` values; the constructor applies the
  same truthiness tests the TypeScript source applies (`0` and `""` are
  falsy and fall back to the default; a supplied projection is an object
  and objects are always truthy, so `project` is tested by presence).
* The MongoDB collection handle is an opaque query engine: a function from
  an executed pipeline to the materialized list of result documents,
  together with a field accessor reading the `totalCount` field of a
  count-result document.
* The one place the source can throw — destructuring
  `const [{ totalCount }] = ...` of an empty array in `getTotalInfo` — is
  modelled with `Except String`.
-/

namespace MongoPaginator

/-- A pipeline stage as the paginator sees it: either one of the caller's
opaque stage descriptors, or one of the stages the paginator appends itself
(`{ $skip: n }`, `{ $limit: n }`, `{ $project: p }`, `{ $count: field }`). -/
inductive Stage (σ π : Type) where
  | user : σ → Stage σ π
  | skip : Int → Stage σ π
  | limit : Int → Stage σ π
  | project : π → Stage σ π
  | count : String → Stage σ π
deriving DecidableEq, Repr

/-- `PaginationOptions<T>` from `src/Pagination.ts`: every field optional. -/
structure PaginationOptions (π : Type) where
  page : Option Int := none
  limit : Option Int := none
  query : Option String := none
  url : Option String := none
  project : Option π := none
deriving DecidableEq, Repr

/-- The opaque query engine behind the `Collection` handle: `exec` is
`collection.aggregate(pipeline).toArray()`, and `totalCount` reads the
`totalCount` field of a (count-result) document. -/
structure Collection (σ π δ : Type) where
  exec : List (Stage σ π) → List δ
  totalCount : δ → Int

/-- The `Paginator` instance right after construction: the constructor stores
the collection handle, the caller's aggregation array and the options bundle. -/
structure Paginator (σ π δ : Type) where
  collection : Collection σ π δ
  aggregation : List σ
  options : Option (PaginationOptions π) := none

/-- JavaScript truthiness choice on an optional number:
`options?.x ? options.x : d` — `undefined` and `0` are falsy. -/
def truthyNum (v : Option Int) (d : Int) : Int :=
  match v with
  | some n => if n = 0 then d else n
  | none => d

/-- JavaScript truthiness choice on an optional string:
`undefined` and `""` are falsy. -/
def truthyStr (v : Option String) : String :=
  match v with
  | some s => if s = "" then "" else s
  | none => ""

/-- `this.page = options?.page ? options.page : 1` (constructor, line 63). -/
def Paginator.page (p : Paginator σ π δ) : Int :=
  truthyNum (p.options.bind (fun o => o.page)) 1

/-- `this.limit = options?.limit ? options.limit : 10` (constructor, line 64). -/
def Paginator.limit (p : Paginator σ π δ) : Int :=
  truthyNum (p.options.bind (fun o => o.limit)) 10

/-- `this.url`, default `""`, overwritten when `options?.url` is truthy. -/
def Paginator.url (p : Paginator σ π δ) : String :=
  truthyStr (p.options.bind (fun o => o.url))

/-- `this.query`, default `""`, overwritten when `options?.query` is truthy. -/
def Paginator.query (p : Paginator σ π δ) : String :=
  truthyStr (p.options.bind (fun o => o.query))

/-- `this.project`, set only when `options?.project` is truthy. A supplied
projection is a JavaScript object and objects are always truthy, so presence
(`isSome`) is the truthiness test. -/
def Paginator.project (p : Paginator σ π δ) : Option π :=
  p.options.bind (fun o => o.project)

/-- The body of `getData` up to the query call (lines 116-126):
`const aggregation = [...this.aggregation, { $skip: (page-1)*limit },
{ $limit: limit }]` — the spread copies the caller's array element by element
into a fresh array — then `aggregation.push({ $project: ... })` when a
projection was supplied, mutating only the fresh array. The result pairs the
fresh array with the caller's array as it stands after the operation. -/
def buildDataPipeline (aggregation : List σ) (page limit : Int) (project : Option π) :
    List (Stage σ π) × List σ :=
  let fresh : List (Stage σ π) :=
    aggregation.map Stage.user ++ [Stage.skip ((page - 1) * limit), Stage.limit limit]
  match project with
  | some pr => (fresh ++ [Stage.project pr], aggregation)
  | none => (fresh, aggregation)

/-- The pipeline of `getTotalInfo` (line 138):
`[...this.aggregation, { $count: "totalCount" }]`, again pairing the fresh
array with the caller's array after the operation. -/
def buildCountPipeline (π : Type) (aggregation : List σ) :
    List (Stage σ π) × List σ :=
  (aggregation.map Stage.user ++ [Stage.count "totalCount"], aggregation)

/-- The pipeline `getData` executes. -/
def Paginator.dataPipeline (p : Paginator σ π δ) : List (Stage σ π) :=
  (buildDataPipeline p.aggregation p.page p.limit p.project).1

/-- The pipeline `getTotalInfo` executes. -/
def Paginator.countPipeline (p : Paginator σ π δ) : List (Stage σ π) :=
  (buildCountPipeline π p.aggregation).1

/-- `getData` (lines 115-129): execute the augmented pipeline and materialize
the cursor. -/
def Paginator.getData (p : Paginator σ π δ) : List δ :=
  p.collection.exec p.dataPipeline

/-- `getTotalInfo` (lines 136-142): execute the count pipeline and destructure
the first resulting record, `const [{ totalCount }] = ...`. Destructuring an
empty array throws a `TypeError`; destructuring a present first record reads
its `totalCount` field. -/
def Paginator.getTotalInfo (p : Paginator σ π δ) : Except String Int :=
  match p.collection.exec p.countPipeline with
  | [] => Except.error "TypeError: cannot destructure totalCount of undefined"
  | d :: _ => Except.ok (p.collection.totalCount d)

/-- `Math.ceil(a / b)` for integers `a`, `b` with `b ≠ 0`: the ceiling of the
rational quotient, computed as `-(floor((-a) / b))`. -/
def ceilDiv (a b : Int) : Int :=
  -((-a).fdiv b)

/-- `getFirstPageUrl` (lines 149-151). -/
def Paginator.getFirstPageUrl (p : Paginator σ π δ) : String :=
  p.url ++ "?" ++ (if p.query = "" then "" else p.query ++ "&") ++ "page=1"

/-- `getLastPageUrl` (lines 159-161). -/
def Paginator.getLastPageUrl (p : Paginator σ π δ) (lastPage : Int) : String :=
  p.url ++ "?" ++ (if p.query = "" then "" else p.query ++ "&") ++ "page=" ++ toString lastPage

/-- `getPreviousPageUrl` (lines 168-173): `null` when `this.page === 1`. -/
def Paginator.getPreviousPageUrl (p : Paginator σ π δ) : Option String :=
  if p.page = 1 then none
  else some (p.url ++ "?" ++ (if p.query = "" then "" else p.query ++ "&")
    ++ "page=" ++ toString (p.page - 1))

/-- `getNextPageUrl` (lines 181-186): `null` when `this.page === lastPage`. -/
def Paginator.getNextPageUrl (p : Paginator σ π δ) (lastPage : Int) : Option String :=
  if p.page = lastPage then none
  else some (p.url ++ "?" ++ (if p.query = "" then "" else p.query ++ "&")
    ++ "page=" ++ toString (p.page + 1))

/-- The `Pagination<D>` result structure from `src/Pagination.ts`. -/
structure Pagination (δ : Type) where
  data : List δ
  first_page_url : String
  last_page_url : String
  next_page_url : Option String
  prev_page_url : Option String
  path : String
  per_page : Int
  «from» : Int
  «to» : Int
  total : Int
  current_page : Int
  last_page : Int
deriving DecidableEq, Repr

/-- The meta construction of `paginate` (lines 89-105), given the fetched
`data` and the already-resolved `totalCount`. -/
def Paginator.mkMeta (p : Paginator σ π δ) (data : List δ) (totalCount : Int) :
    Pagination δ :=
  let totalPages := if totalCount > 0 then ceilDiv totalCount p.limit else 1
  { data := data
    first_page_url := p.getFirstPageUrl
    last_page_url := p.getLastPageUrl totalPages
    next_page_url := p.getNextPageUrl totalPages
    prev_page_url := p.getPreviousPageUrl
    path := p.url
    per_page := p.limit
    «from» := if totalCount > 0 then (if p.page = 1 then 1 else (p.page - 1) * p.limit + 1) else 0
    «to» := if p.page = totalPages then totalCount else p.page * p.limit
    total := totalCount
    current_page := p.page
    last_page := totalPages }

/-- `paginate` (lines 84-108): fetch the page data; when it is non-empty run
the count query (whose destructuring may throw), otherwise take the total to
be `0`; then assemble the meta structure. -/
def Paginator.paginate (p : Paginator σ π δ) : Except String (Pagination δ) :=
  let data := p.getData
  match (if data.length > 0 then p.getTotalInfo else Except.ok 0) with
  | Except.error e => Except.error e
  | Except.ok totalCount => Except.ok (p.mkMeta data totalCount)

/-- Modelled from the spec: the underlying query engine is an external
collaborator, out of scope of the repository (spec section 1), so its stage
semantics are taken from the spec glossary — `$skip` "discards the first N
records", `$limit` "caps the result to M records", a projection is "a
field-inclusion/exclusion descriptor limiting which record fields are
returned" (record-count preserving, modelled by mapping `proj` over the
records), and `$count` produces the single record `mkCountDoc n` holding the
count. Caller-supplied stages are interpreted by an arbitrary function
`sem`. MongoDB rejects negative skip/limit arguments with an error; this
model clamps them to zero instead, which only enlarges the set of runs that
complete without an engine error. -/
def evalStage (sem : σ → List δ → List δ) (proj : π → δ → δ) (mkCountDoc : Nat → δ)
    (docs : List δ) : Stage σ π → List δ
  | Stage.user s => sem s docs
  | Stage.skip n => docs.drop n.toNat
  | Stage.limit n => docs.take n.toNat
  | Stage.project pr => docs.map (proj pr)
  | Stage.count _ => [mkCountDoc docs.length]

/-- Modelled from the spec: a pipeline is executed by folding its stages in
order over the collection's current record list. -/
def evalPipeline (sem : σ → List δ → List δ) (proj : π → δ → δ) (mkCountDoc : Nat → δ)
    (docs : List δ) (pl : List (Stage σ π)) : List δ :=
  pl.foldl (evalStage sem proj mkCountDoc) docs

/-- A collection handle whose query engine is the modelled pipeline
evaluator over a fixed backing list of documents. -/
def modelCollection (sem : σ → List δ → List δ) (proj : π → δ → δ)
    (mkCountDoc : Nat → δ) (tc : δ → Int) (docs : List δ) : Collection σ π δ :=
  { exec := fun pl => evalPipeline sem proj mkCountDoc docs pl
    totalCount := tc }

/-!
Concrete example instances used by the witness theorems.
-/

/-- A collection over `Int` documents whose every query returns `[]`. -/
def exCollEmpty : Collection Unit Unit Int :=
  { exec := fun _ => [], totalCount := fun d => d }

/-- A paginator over the empty collection with no options (all defaults). -/
def exPagEmpty : Paginator Unit Unit Int :=
  { collection := exCollEmpty, aggregation := [], options := none }

/-- A paginator constructed with `page: 0, limit: 5` (page `0` is falsy in
the constructor's truthiness test). -/
def exPagPageZero : Paginator Unit Unit Int :=
  { collection := exCollEmpty, aggregation := [],
    options := some { page := some 0, limit := some 5 } }

/-- A paginator constructed with `page: 2, limit: 0` (limit `0` is falsy in
the constructor's truthiness test). -/
def exPagLimitZero : Paginator Unit Unit Int :=
  { collection := exCollEmpty, aggregation := [],
    options := some { page := some 2, limit := some 0 } }

/-- A paginator over a modelled three-document collection, `page: 1,
limit: 2`. -/
def exPagModel : Paginator Unit Unit Int :=
  { collection :=
      modelCollection (fun _ d => d) (fun _ d => d) (fun n => (n : Int))
        (fun d => d) [1, 2, 3]
    aggregation := []
    options := some { page := some 1, limit := some 2 } }

/-!
Supporting lemmas.
-/

/-- `ceilDiv a b` is bracketed by `a ≤ b * ceilDiv a b < a + b` when `0 < b`. -/
theorem ceilDiv_bounds (a : Int) {b : Int} (hb : 0 < b) :
    a ≤ b * ceilDiv a b ∧ b * ceilDiv a b < a + b := by
  have h1 : b * ((-a).fdiv b) + (-a).fmod b = -a := Int.fdiv_add_fmod _ _
  have h2 : 0 ≤ (-a).fmod b := Int.fmod_nonneg' _ hb
  have h3 : (-a).fmod b < b := Int.fmod_lt_of_pos _ hb
  unfold ceilDiv
  constructor <;> nlinarith [h1, h2, h3]

/-- `ceilDiv` agrees with the mathematical ceiling of the rational quotient
for a positive divisor, so it is a faithful model of `Math.ceil(a / b)`. -/
theorem ceilDiv_eq_rat_ceil (a : Int) {b : Int} (hb : 0 < b) :
    ceilDiv a b = ⌈(a : ℚ) / (b : ℚ)⌉ := by
  rcases ceilDiv_bounds a hb with ⟨h1, h2⟩
  have hbq : (0 : ℚ) < (b : ℚ) := by exact_mod_cast hb
  have h1q : (a : ℚ) ≤ (b : ℚ) * (ceilDiv a b : ℚ) := by exact_mod_cast h1
  have h2q : (b : ℚ) * (ceilDiv a b : ℚ) < (a : ℚ) + (b : ℚ) := by exact_mod_cast h2
  symm
  rw [Int.ceil_eq_iff]
  constructor
  · rw [lt_div_iff₀ hbq]
    nlinarith
  · rw [div_le_iff₀ hbq]
    nlinarith

/-- For `1 ≤ a` and `1 ≤ b` the ceiling of `a / b` is at least `1`. -/
theorem ceilDiv_pos (a b : Int) (ha : 1 ≤ a) (hb : 1 ≤ b) : 1 ≤ ceilDiv a b := by
  rcases ceilDiv_bounds a (show (0 : Int) < b by omega) with ⟨h1, _⟩
  by_contra h
  push_neg at h
  nlinarith

/-- For `a ≤ 0` and `1 ≤ b` the ceiling of `a / b` is at most `0`. -/
theorem ceilDiv_nonpos (a b : Int) (ha : a ≤ 0) (hb : 1 ≤ b) : ceilDiv a b ≤ 0 := by
  rcases ceilDiv_bounds a (show (0 : Int) < b by omega) with ⟨_, h2⟩
  nlinarith

/-- Every successful `paginate` result is the meta structure built from the
fetched data and the resolved total. -/
theorem paginate_ok_eq {σ π δ : Type} {p : Paginator σ π δ} {r : Pagination δ}
    (h : p.paginate = Except.ok r) :
    r = p.mkMeta p.getData r.total := by
  simp only [Paginator.paginate] at h
  rcases hc : (if p.getData.length > 0 then p.getTotalInfo else Except.ok (0 : Int)) with e | tc
  · rw [hc] at h
    exact absurd h (by simp)
  · rw [hc] at h
    simp only [Except.ok.injEq] at h
    subst h
    simp [Paginator.mkMeta]

/-- When the data query comes back empty, `paginate` succeeds with total `0`
without consulting the count query. -/
theorem paginate_of_getData_eq_nil {σ π δ : Type} {p : Paginator σ π δ}
    (h : p.getData = []) :
    p.paginate = Except.ok (p.mkMeta [] 0) := by
  simp [Paginator.paginate, h]

/-- The data pipeline, flattened: original stages, then skip, then limit,
then the projection exactly when one was supplied. -/
theorem dataPipeline_eq {σ π δ : Type} (p : Paginator σ π δ) :
    p.dataPipeline =
      p.aggregation.map Stage.user ++
        [Stage.skip ((p.page - 1) * p.limit), Stage.limit p.limit] ++
        (match p.project with
         | some pr => [Stage.project pr]
         | none => []) := by
  cases hp : p.project <;>
    simp [Paginator.dataPipeline, buildDataPipeline, hp]

/-!
The claims.
-/

/-- C1: for every result returned by `paginate` (with limit at least 1), the
`last_page` field equals `max 1 ⌈total / limit⌉`; in particular
`last_page ≥ 1` always, and `last_page = 1` whenever `total = 0`. -/
theorem C1_last_page_invariant {σ π δ : Type} (p : Paginator σ π δ) (r : Pagination δ)
    (hlim : 1 ≤ p.limit) (h : p.paginate = Except.ok r) :
    r.last_page = max 1 ⌈(r.total : ℚ) / (p.limit : ℚ)⌉ ∧
    1 ≤ r.last_page ∧ (r.total = 0 → r.last_page = 1) := by
  have hr := paginate_ok_eq h
  have hlp : r.last_page = if r.total > 0 then ceilDiv r.total p.limit else 1 := by
    rw [hr]
    simp [Paginator.mkMeta]
  rw [← ceilDiv_eq_rat_ceil r.total (show (0 : Int) < p.limit by omega)]
  rcases le_or_lt r.total 0 with ht | ht
  · have hc := ceilDiv_nonpos r.total p.limit ht hlim
    rw [hlp, if_neg (by omega)]
    exact ⟨by omega, by omega, fun _ => rfl⟩
  · have hc := ceilDiv_pos r.total p.limit (by omega) hlim
    rw [hlp, if_pos (by omega)]
    exact ⟨by omega, by omega, fun h0 => by omega⟩

/-- C1 witness: the invariant evaluated on a concrete paginator (empty
collection, default options, so limit 10 and total 0). -/
theorem C1_last_page_invariant_witness :
    (exPagEmpty.mkMeta [] 0).last_page =
      max 1 ⌈(((exPagEmpty.mkMeta [] 0).total : ℚ)) / ((exPagEmpty.limit : ℚ))⌉ ∧
    1 ≤ (exPagEmpty.mkMeta [] 0).last_page ∧
    ((exPagEmpty.mkMeta [] 0).total = 0 → (exPagEmpty.mkMeta [] 0).last_page = 1) :=
  C1_last_page_invariant exPagEmpty (exPagEmpty.mkMeta [] 0) (by decide) (by rfl)

/-- C2: when the data query returns `[]`, `paginate` succeeds with
`total = 0` and `last_page = 1` whatever the requested page was, and the
count query is never executed: replacing the collection by one with
arbitrary behavior on every pipeline other than the data pipeline (in
particular on the count pipeline) leaves the result unchanged. -/
theorem C2_empty_data {σ π δ : Type} (p : Paginator σ π δ)
    (g : List (Stage σ π) → List δ) (tc : δ → Int)
    (hg : g p.dataPipeline = p.collection.exec p.dataPipeline)
    (h : p.getData = []) :
    p.paginate = Except.ok (p.mkMeta [] 0) ∧
    (p.mkMeta [] 0).total = 0 ∧
    (p.mkMeta [] 0).last_page = 1 ∧
    (Paginator.mk { exec := g, totalCount := tc } p.aggregation p.options).paginate
      = p.paginate := by
  have h1 : p.paginate = Except.ok (p.mkMeta [] 0) := paginate_of_getData_eq_nil h
  refine ⟨h1, rfl, rfl, ?_⟩
  have hd : (Paginator.mk { exec := g, totalCount := tc } p.aggregation p.options).getData
      = [] := by
    show g _ = []
    have hpl : (Paginator.mk { exec := g, totalCount := tc } p.aggregation
        p.options).dataPipeline = p.dataPipeline := rfl
    rw [hpl, hg]
    exact h
  rw [paginate_of_getData_eq_nil hd, h1]
  rfl

/-- C2 witness: the empty-collection paginator, with the replacement engine
also returning `[]` on the data pipeline. -/
theorem C2_empty_data_witness :
    exPagEmpty.paginate = Except.ok (exPagEmpty.mkMeta [] 0) ∧
    (exPagEmpty.mkMeta [] 0).total = 0 ∧
    (exPagEmpty.mkMeta [] 0).last_page = 1 ∧
    (Paginator.mk { exec := fun _ => [], totalCount := fun d => d }
      exPagEmpty.aggregation exPagEmpty.options).paginate = exPagEmpty.paginate :=
  C2_empty_data exPagEmpty (fun _ => []) (fun d => d) (by rfl) (by rfl)

/-- C3: the data query's pipeline is exactly the original stages followed by
`$skip ((page-1)*limit)` then `$limit limit`, with `$project` appended
exactly when a projection was supplied; the count query's pipeline is
exactly the original stages followed by `$count "totalCount"`. -/
theorem C3_pipeline_shape {σ π δ : Type} (p : Paginator σ π δ) :
    p.dataPipeline =
      p.aggregation.map Stage.user ++
        [Stage.skip ((p.page - 1) * p.limit), Stage.limit p.limit] ++
        (match p.project with
         | some pr => [Stage.project pr]
         | none => []) ∧
    p.countPipeline = p.aggregation.map Stage.user ++ [Stage.count "totalCount"] :=
  ⟨dataPipeline_eq p, rfl⟩

/-- C4: building the augmented pipelines never mutates the caller's original
array — the spread copies it, and `push` targets only the copy — so the
array after the build is the original, and rebuilding from it yields
identical pipelines for repeated calls. -/
theorem C4_no_mutation {σ π : Type} (aggregation : List σ) (page limit : Int)
    (project : Option π) :
    (buildDataPipeline aggregation page limit project).2 = aggregation ∧
    (buildCountPipeline π aggregation).2 = aggregation ∧
    buildDataPipeline (buildDataPipeline aggregation page limit project).2 page limit
        project = buildDataPipeline aggregation page limit project ∧
    buildCountPipeline π (buildDataPipeline aggregation page limit project).2
      = buildCountPipeline π aggregation := by
  cases project <;> simp [buildDataPipeline, buildCountPipeline]

/-- C5: in every `paginate` result, `prev_page_url` is `null` exactly when
`page = 1` and otherwise carries the URL template at `page - 1`, and
`next_page_url` is `null` exactly when `page = last_page` and otherwise
carries the URL template at `page + 1`. -/
theorem C5_nav_urls {σ π δ : Type} (p : Paginator σ π δ) (r : Pagination δ)
    (h : p.paginate = Except.ok r) :
    (r.prev_page_url = none ↔ r.current_page = 1) ∧
    (r.current_page ≠ 1 →
      r.prev_page_url = some (p.url ++ "?" ++ (if p.query = "" then "" else p.query ++ "&")
        ++ "page=" ++ toString (r.current_page - 1))) ∧
    (r.next_page_url = none ↔ r.current_page = r.last_page) ∧
    (r.current_page ≠ r.last_page →
      r.next_page_url = some (p.url ++ "?" ++ (if p.query = "" then "" else p.query ++ "&")
        ++ "page=" ++ toString (r.current_page + 1))) := by
  have hr := paginate_ok_eq h
  have hcp : r.current_page = p.page := by rw [hr]; rfl
  have hprev : r.prev_page_url = p.getPreviousPageUrl := by rw [hr]; rfl
  have hnext : r.next_page_url = p.getNextPageUrl r.last_page := by
    rw [hr]
    rfl
  refine ⟨?_, ?_, ?_, ?_⟩
  · rw [hprev, hcp]
    unfold Paginator.getPreviousPageUrl
    by_cases hp1 : p.page = 1 <;> simp [hp1]
  · intro hne
    rw [hcp] at hne
    rw [hprev, hcp]
    unfold Paginator.getPreviousPageUrl
    rw [if_neg hne]
  · rw [hnext, hcp]
    unfold Paginator.getNextPageUrl
    by_cases hp1 : p.page = r.last_page <;> simp [hp1]
  · intro hne
    rw [hcp] at hne
    rw [hnext, hcp]
    unfold Paginator.getNextPageUrl
    rw [if_neg hne]

/-- C5 witness: the navigation edges on a concrete successful result (model
collection of three documents, page 1 of 2). -/
theorem C5_nav_urls_witness :
    ((exPagModel.mkMeta [1, 2] 3).prev_page_url = none ↔
      (exPagModel.mkMeta [1, 2] 3).current_page = 1) ∧
    ((exPagModel.mkMeta [1, 2] 3).current_page ≠ 1 →
      (exPagModel.mkMeta [1, 2] 3).prev_page_url = some (exPagModel.url ++ "?"
        ++ (if exPagModel.query = "" then "" else exPagModel.query ++ "&")
        ++ "page=" ++ toString ((exPagModel.mkMeta [1, 2] 3).current_page - 1))) ∧
    ((exPagModel.mkMeta [1, 2] 3).next_page_url = none ↔
      (exPagModel.mkMeta [1, 2] 3).current_page = (exPagModel.mkMeta [1, 2] 3).last_page) ∧
    ((exPagModel.mkMeta [1, 2] 3).current_page ≠ (exPagModel.mkMeta [1, 2] 3).last_page →
      (exPagModel.mkMeta [1, 2] 3).next_page_url = some (exPagModel.url ++ "?"
        ++ (if exPagModel.query = "" then "" else exPagModel.query ++ "&")
        ++ "page=" ++ toString ((exPagModel.mkMeta [1, 2] 3).current_page + 1))) :=
  C5_nav_urls exPagModel (exPagModel.mkMeta [1, 2] 3) (by rfl)

/-- C6: in every `paginate` result, `from` is `0` when `total = 0`, `1` on
page 1 and `(page-1)*limit + 1` otherwise, and `to` is `total` exactly on
the last page and the unclamped `page * limit` on every other page. -/
theorem C6_from_to {σ π δ : Type} (p : Paginator σ π δ) (r : Pagination δ)
    (h : p.paginate = Except.ok r) :
    r.«from» = (if r.total > 0 then
      (if r.current_page = 1 then 1 else (r.current_page - 1) * r.per_page + 1) else 0) ∧
    r.«to» = (if r.current_page = r.last_page then r.total
      else r.current_page * r.per_page) := by
  have hr := paginate_ok_eq h
  constructor
  · rw [hr]
    rfl
  · rw [hr]
    rfl

/-- C6 witness: the `from`/`to` formulas evaluated on a concrete successful
result (three documents, page 1 of 2, limit 2). -/
theorem C6_from_to_witness :
    (exPagModel.mkMeta [1, 2] 3).«from» = (if (exPagModel.mkMeta [1, 2] 3).total > 0 then
      (if (exPagModel.mkMeta [1, 2] 3).current_page = 1 then 1
        else ((exPagModel.mkMeta [1, 2] 3).current_page - 1)
          * (exPagModel.mkMeta [1, 2] 3).per_page + 1) else 0) ∧
    (exPagModel.mkMeta [1, 2] 3).«to» =
      (if (exPagModel.mkMeta [1, 2] 3).current_page = (exPagModel.mkMeta [1, 2] 3).last_page
        then (exPagModel.mkMeta [1, 2] 3).total
        else (exPagModel.mkMeta [1, 2] 3).current_page
          * (exPagModel.mkMeta [1, 2] 3).per_page) :=
  C6_from_to exPagModel (exPagModel.mkMeta [1, 2] 3) (by rfl)

/-- C7: in every `paginate` result, `first_page_url` is the URL template at
page 1 and `last_page_url` the template at `last_page`; with an empty query
string the template degenerates to `url ++ "?page=N"` with no stray
separator. -/
theorem C7_page_urls {σ π δ : Type} (p : Paginator σ π δ) (r : Pagination δ)
    (h : p.paginate = Except.ok r) :
    r.first_page_url =
      p.url ++ "?" ++ (if p.query = "" then "" else p.query ++ "&") ++ "page=1" ∧
    r.last_page_url =
      p.url ++ "?" ++ (if p.query = "" then "" else p.query ++ "&") ++ "page="
        ++ toString r.last_page ∧
    (p.query = "" → r.first_page_url = p.url ++ "?page=1" ∧
      r.last_page_url = p.url ++ "?page=" ++ toString r.last_page) := by
  have hr := paginate_ok_eq h
  have h1 : r.first_page_url =
      p.url ++ "?" ++ (if p.query = "" then "" else p.query ++ "&") ++ "page=1" := by
    rw [hr]
    rfl
  have h2 : r.last_page_url =
      p.url ++ "?" ++ (if p.query = "" then "" else p.query ++ "&") ++ "page="
        ++ toString r.last_page := by
    rw [hr]
    rfl
  refine ⟨h1, h2, fun hq => ⟨?_, ?_⟩⟩
  · rw [h1, if_pos hq, String.append_empty, String.append_assoc]
    rfl
  · rw [h2, if_pos hq, String.append_empty]
    congr 1
    rw [String.append_assoc]
    rfl

/-- C7 witness: the URL templates on a concrete successful result with an
empty query string. -/
theorem C7_page_urls_witness :
    (exPagModel.mkMeta [1, 2] 3).first_page_url = exPagModel.url ++ "?"
      ++ (if exPagModel.query = "" then "" else exPagModel.query ++ "&") ++ "page=1" ∧
    (exPagModel.mkMeta [1, 2] 3).last_page_url = exPagModel.url ++ "?"
      ++ (if exPagModel.query = "" then "" else exPagModel.query ++ "&") ++ "page="
      ++ toString (exPagModel.mkMeta [1, 2] 3).last_page ∧
    (exPagModel.query = "" →
      (exPagModel.mkMeta [1, 2] 3).first_page_url = exPagModel.url ++ "?page=1" ∧
      (exPagModel.mkMeta [1, 2] 3).last_page_url = exPagModel.url ++ "?page="
        ++ toString (exPagModel.mkMeta [1, 2] 3).last_page) :=
  C7_page_urls exPagModel (exPagModel.mkMeta [1, 2] 3) (by rfl)

/-- C8 counterexample: constructing with `page: 0, limit: 5` does not store
page `0` — the constructor's truthiness test (`options?.page ? ... : 1`)
treats `0` as falsy and falls back to the default `1`, so the skip stage is
`$skip 0`, not the claimed `$skip ((0-1)*5)`; likewise `limit: 0` is
replaced by the default `10` rather than reaching the query engine. -/
theorem C8_counterexample :
    exPagPageZero.page = 1 ∧
    exPagPageZero.dataPipeline = [Stage.skip 0, Stage.limit 5] ∧
    exPagPageZero.dataPipeline ≠ [Stage.skip ((0 - 1) * 5), Stage.limit 5] ∧
    exPagLimitZero.limit = 10 ∧
    exPagLimitZero.dataPipeline = [Stage.skip 10, Stage.limit 10] ∧
    exPagLimitZero.dataPipeline ≠ [Stage.skip ((2 - 1) * 0), Stage.limit 0] := by
  decide

/-- C8 amended: a supplied non-zero (in particular negative) page or limit is
stored without validation and flows into the skip/limit stages exactly as
supplied, while a supplied `0` is falsy and falls back to the default
(page 1, limit 10); the data pipeline's skip stage always equals
`(storedPage - 1) * storedLimit` and its limit stage carries the stored
limit. -/
theorem C8_amended {σ π δ : Type} (c : Collection σ π δ) (aggregation : List σ)
    (o : PaginationOptions π) :
    (∀ pg : Int, o.page = some pg → pg ≠ 0 →
      (Paginator.mk c aggregation (some o)).page = pg) ∧
    (o.page = some 0 → (Paginator.mk c aggregation (some o)).page = 1) ∧
    (∀ lm : Int, o.limit = some lm → lm ≠ 0 →
      (Paginator.mk c aggregation (some o)).limit = lm) ∧
    (o.limit = some 0 → (Paginator.mk c aggregation (some o)).limit = 10) ∧
    (Paginator.mk c aggregation (some o)).dataPipeline =
      aggregation.map Stage.user ++
        [Stage.skip (((Paginator.mk c aggregation (some o)).page - 1) *
            (Paginator.mk c aggregation (some o)).limit),
          Stage.limit (Paginator.mk c aggregation (some o)).limit] ++
        (match o.project with
         | some pr => [Stage.project pr]
         | none => []) := by
  refine ⟨?_, ?_, ?_, ?_, ?_⟩
  · intro pg hpg h0
    simp [Paginator.page, truthyNum, hpg, h0]
  · intro hpg
    simp [Paginator.page, truthyNum, hpg]
  · intro lm hlm h0
    simp [Paginator.limit, truthyNum, hlm, h0]
  · intro hlm
    simp [Paginator.limit, truthyNum, hlm]
  · exact dataPipeline_eq _

/-- C8 amended witness: negative page and limit are stored as supplied. -/
theorem C8_amended_witness :
    (Paginator.mk exCollEmpty ([] : List Unit)
      (some ({ page := some (-2), limit := some (-3) } : PaginationOptions Unit))).page
        = -2 ∧
    (Paginator.mk exCollEmpty ([] : List Unit)
      (some ({ page := some (-2), limit := some (-3) } : PaginationOptions Unit))).limit
        = -3 :=
  ⟨(C8_amended exCollEmpty []
      { page := some (-2), limit := some (-3) }).1 (-2) rfl (by decide),
   (C8_amended exCollEmpty []
      { page := some (-2), limit := some (-3) }).2.2.1 (-3) rfl (by decide)⟩

/-- The modelled evaluator caps the record count at `limit.toNat` for a
pipeline ending in skip-then-limit, with or without a trailing projection. -/
theorem length_evalPipeline_le {σ π δ : Type} (sem : σ → List δ → List δ)
    (proj : π → δ → δ) (mkCountDoc : Nat → δ) (docs : List δ)
    (A : List (Stage σ π)) (s l : Int) :
    (evalPipeline sem proj mkCountDoc docs (A ++ [Stage.skip s, Stage.limit l])).length
      ≤ l.toNat ∧
    ∀ pr : π,
      (evalPipeline sem proj mkCountDoc docs
        (A ++ [Stage.skip s, Stage.limit l] ++ [Stage.project pr])).length ≤ l.toNat := by
  constructor
  · simp [evalPipeline, List.foldl_append, evalStage, List.length_take]
  · intro pr
    simp [evalPipeline, List.foldl_append, evalStage, List.length_take]

/-- C9: over the modelled query engine, for every backing document list,
caller stage semantics and options bundle supplying a limit of at least 1,
a successful `paginate` returns at most `limit` documents. -/
theorem C9_data_le_limit {σ π δ : Type} (sem : σ → List δ → List δ) (proj : π → δ → δ)
    (mkCountDoc : Nat → δ) (tc : δ → Int) (docs : List δ) (aggregation : List σ)
    (o : PaginationOptions π) (lm : Int) (r : Pagination δ)
    (hlm : o.limit = some lm) (h1 : 1 ≤ lm)
    (h : (Paginator.mk (modelCollection sem proj mkCountDoc tc docs) aggregation
      (some o)).paginate = Except.ok r) :
    (r.data.length : Int) ≤ lm := by
  set p : Paginator σ π δ :=
    Paginator.mk (modelCollection sem proj mkCountDoc tc docs) aggregation (some o)
    with hp
  have h0 : lm ≠ 0 := by omega
  have hr := paginate_ok_eq h
  have hdata : r.data = p.getData := by rw [hr]; rfl
  have hlim : p.limit = lm := by
    simp [hp, Paginator.limit, truthyNum, hlm, h0]
  have hpipe := dataPipeline_eq p
  have hexec : p.getData = evalPipeline sem proj mkCountDoc docs p.dataPipeline := rfl
  rw [hdata]
  rcases hpr : p.project with _ | pr
  · rw [hpr] at hpipe
    simp only [List.append_nil] at hpipe
    have hle := (length_evalPipeline_le sem proj mkCountDoc docs
      (p.aggregation.map Stage.user) ((p.page - 1) * p.limit) p.limit).1
    rw [← hpipe, ← hexec, hlim] at hle
    omega
  · rw [hpr] at hpipe
    simp only at hpipe
    have hle := (length_evalPipeline_le sem proj mkCountDoc docs
      (p.aggregation.map Stage.user) ((p.page - 1) * p.limit) p.limit).2 pr
    rw [← hpipe, ← hexec, hlim] at hle
    omega

/-- C9 witness: the modelled three-document collection with limit 2 returns
two documents. -/
theorem C9_data_le_limit_witness :
    (((Paginator.mk
        (modelCollection (fun _ d => d) (fun _ d => d) (fun n => (n : Int)) (fun d => d)
          [1, 2, 3])
        ([] : List Unit)
        (some ({ page := some 1, limit := some 2 } : PaginationOptions Unit))).mkMeta
          [1, 2] 3).data.length : Int) ≤ 2 :=
  C9_data_le_limit (fun _ d => d) (fun _ d => d) (fun n => (n : Int)) (fun d => d)
    [1, 2, 3] [] { page := some 1, limit := some 2 } 2 _ rfl (by omega) (by rfl)

/-- C10: `paginate` raises exactly when the data query returned a non-empty
sequence while the count query returned no record at all — the unguarded
destructuring in `getTotalInfo` is the only throw site, so completing
without raising requires the count pipeline to yield at least one record
whenever the data sequence is non-empty. -/
theorem C10_throw_iff {σ π δ : Type} (p : Paginator σ π δ) :
    (∃ e, p.paginate = Except.error e) ↔
      (p.getData ≠ [] ∧ p.collection.exec p.countPipeline = []) := by
  cases hd : p.getData with
  | nil =>
    rw [paginate_of_getData_eq_nil hd]
    simp
  | cons a as =>
    cases hc : p.collection.exec p.countPipeline with
    | nil =>
      simp [Paginator.paginate, Paginator.getTotalInfo, hd, hc]
    | cons b bs =>
      simp [Paginator.paginate, Paginator.getTotalInfo, hd, hc]

end MongoPaginator
